import Mathlib

/-!
Verification of the JoiningNode state handler of the routing node lifecycle
state machine, together with the message envelope layer, routing message
filter and acknowledgment manager it relies on.

The JoiningNode handler and the Action enumeration are translated directly
from the source (src/states/joining_node.rs and src/action.rs). The external
collaborators (Timer, Stats, RoutingMessageFilter, AckManager, the message
envelope layer and the identity generator), whose code is not part of this
repository snapshot, are modelled from the specification; each such
definition carries a doc comment starting with the words Modelled from the
spec.

Machine integers (u64 tokens, u8 routes, usize sizes) are modelled as Nat:
none of the operations here perform arithmetic that could overflow, they
only compare tokens and sizes for equality and order.
-/

namespace RoutingSpec

/-- A fixed-width identifier in XOR metric space (xor_name::XorName). -/
abbrev XorName := Nat

/-- A transport peer handle (crust::PeerId). -/
abbrev PeerId := Nat

/-- The public half of an identity: an Address plus a public signing key
(id::PublicId). Cryptographic keys are external primitives, modelled as
numbers compared for equality. -/
structure PublicId where
  name : XorName
  sign_key : Nat
deriving DecidableEq

/-- A full identity: in the source a (private key, public key, Address)
tuple (id::FullId); the private half never influences control flow here, so
only the public part is carried. -/
structure FullId where
  public_id : PublicId
deriving DecidableEq

def FullId.name (f : FullId) : XorName :=
  f.public_id.name

/-- Modelled from the spec: FullId::within_range builds a wholly new
Identity whose Address is chosen uniformly at random within the closed
interval from lo to hi; randomness is modelled by an explicit seed, and the
fresh key pair is modelled as derived from the seed. -/
def FullId.within_range (lo hi : XorName) (seed : Nat) : FullId :=
  ⟨⟨lo + seed % (hi - lo + 1), seed⟩⟩

/-- A logical sender/receiver designator (routing_table::Authority): either
a single client (public key, proxy name, transport peer handle) or a
network section/location identified by an Address. -/
inductive Authority where
  | Client (client_key : Nat) (proxy_node_name : XorName) (peer_id : PeerId)
  | Section (name : XorName)
  | ManagedNode (name : XorName)
deriving DecidableEq

def Authority.is_client : Authority → Bool
  | .Client _ _ _ => true
  | _ => false

/-- An acknowledgment identity (ack_manager::Ack): a hash of the
acknowledged RoutingMessage. Hashing is an external primitive, modelled as
a numeric encoding of the message identity. -/
abbrev Ack := Nat

/-- The content variants of a RoutingMessage (messages::MessageContent).
The variants that the JoiningNode state never handles carry an opaque
numeric payload; the handled variants carry the fields the handler reads. -/
inductive MessageContent where
  | Relocate (public_id : PublicId) (message_id : Nat)
  | ExpectCandidate (payload : Nat)
  | ConnectionInfoRequest (payload : Nat)
  | ConnectionInfoResponse (payload : Nat)
  | SectionUpdate (payload : Nat)
  | SectionSplit (payload : Nat)
  | OwnSectionMerge (payload : Nat)
  | OtherSectionMerge (payload : Nat)
  | UserMessagePart (payload : Nat)
  | AcceptAsCandidate (payload : Nat)
  | CandidateApproval (payload : Nat)
  | NodeApproval (payload : Nat)
  | Ack (ack : Ack) (priority : Nat)
  | RelocateResponse (target_interval : XorName × XorName) (sec : List PublicId)
deriving DecidableEq

/-- Whether a content variant is an acknowledgment. -/
def MessageContent.is_ack : MessageContent → Bool
  | .Ack _ _ => true
  | _ => false

/-- Whether a content variant is a relocation response. -/
def MessageContent.is_relocate_response : MessageContent → Bool
  | .RelocateResponse _ _ => true
  | _ => false

/-- The network-visible message (messages::RoutingMessage): source
Authority, destination Authority and a content variant; identified by this
triple for deduplication. -/
structure RoutingMessage where
  src : Authority
  dst : Authority
  content : MessageContent
deriving DecidableEq

/-- Modelled from the spec: the per-variant wire priority of the external
messages module; its value influences none of the properties here. -/
def RoutingMessage.priority (_ : RoutingMessage) : Nat := 0

/-- One cryptographic signature: the key of the signer and whether the
signature verifies. Signing and verification are external primitives, so a
signature record carries its verification outcome. -/
structure Sig where
  key : Nat
  valid : Bool
deriving DecidableEq

/-- A RoutingMessage plus the signatures of the sending authority
(messages::SignedMessage). -/
structure SignedMessage where
  content : RoutingMessage
  signatures : List Sig
deriving DecidableEq

def SignedMessage.routing_message (m : SignedMessage) : RoutingMessage :=
  m.content

/-- Modelled from the spec: sign(routing_message, identity,
additional_signers) produces a SignedMessage carrying a signature by the
identity and one by each additional signer; a produced signature verifies
under the public key of its signer. -/
def SignedMessage.new (routing_msg : RoutingMessage) (full_id : FullId)
    (sending_nodes : List PublicId) : SignedMessage :=
  ⟨routing_msg, ⟨full_id.public_id.sign_key, true⟩ ::
    sending_nodes.map (fun p => ⟨p.sign_key, true⟩)⟩

/-- The unit transmitted between directly connected peers
(messages::HopMessage): a SignedMessage wrapped with the signature of the
immediate relaying peer and the route index. -/
structure HopMessage where
  content : SignedMessage
  route : Nat
  hop_sig : Sig
deriving DecidableEq

/-- The internal protocol error taxonomy (error::RoutingError), restricted
to the variants the JoiningNode paths can produce. -/
inductive RoutingError where
  | UnknownConnection (peer_id : PeerId)
  | FilterCheckFailed
  | ProxyConnectionNotFound
  | InvalidSource
  | FailedSignature
  | NotEnoughSignatures
  | SerialisationError
deriving DecidableEq

/-- The shape of Rust Result with a RoutingError. -/
inductive RoutingResult (α : Type) where
  | ok (value : α)
  | error (e : RoutingError)
deriving DecidableEq

/-- Modelled from the spec: verify(hop_message, relayer_public_key)
validates the outer hop signature only, against the given trusted public
key, without inspecting the inner content. -/
def HopMessage.verify (h : HopMessage) (key : Nat) : RoutingResult Unit :=
  if h.hop_sig.valid && (h.hop_sig.key == key) then .ok () else .error .FailedSignature

/-- Modelled from the spec: the quorum a section-sourced message must meet,
derived from the minimum section size; the spec leaves the exact fraction
as a configuration parameter, fixed here as a strict majority. -/
def quorum_size (min_section_size : Nat) : Nat :=
  min_section_size / 2 + 1

/-- Modelled from the spec: check_integrity(signed_message,
min_section_size) validates that every carried signature verifies
cryptographically and that the signature set meets the quorum required for
the claimed source authority: a client-sourced message needs the signature
of the client key, a section-sourced message needs at least the
min_section_size derived minimum. -/
def SignedMessage.check_integrity (m : SignedMessage) (min_section_size : Nat) :
    RoutingResult Unit :=
  if !(m.signatures.all (fun s => s.valid)) then .error .FailedSignature
  else
    match m.content.src with
    | .Client ck _ _ =>
      if m.signatures.any (fun s => s.key == ck) then .ok ()
      else .error .FailedSignature
    | _ =>
      if quorum_size min_section_size ≤ m.signatures.length then .ok ()
      else .error .NotEnoughSignatures

/-- The verdict of the routing message filter
(routing_message_filter::FilteringResult). -/
inductive FilteringResult where
  | NewMessage
  | KnownMessage
  | KnownMessageAndRoute
deriving DecidableEq

/-- Modelled from the spec: the routing message filter holds the seen-set
of (message identity, route) pairs for incoming messages and of
(message identity, peer, route) triples for outgoing messages. Bounded
expiry is outside the retry horizon considered here, so entries are kept. -/
structure RoutingMessageFilter where
  incoming : List (RoutingMessage × Nat)
  outgoing : List (RoutingMessage × PeerId × Nat)
deriving DecidableEq

def RoutingMessageFilter.new : RoutingMessageFilter :=
  ⟨[], []⟩

/-- Modelled from the spec: filter_incoming(message, route) classifies a
message as KnownMessageAndRoute when this exact (message, route) pair was
seen, as KnownMessage when the message identity was seen on any route, and
as NewMessage otherwise, recording the pair as seen. -/
def RoutingMessageFilter.filter_incoming (f : RoutingMessageFilter)
    (msg : RoutingMessage) (route : Nat) :
    FilteringResult × RoutingMessageFilter :=
  if (msg, route) ∈ f.incoming then
    (.KnownMessageAndRoute, f)
  else if f.incoming.any (fun e => e.1 == msg) then
    (.KnownMessage, { f with incoming := (msg, route) :: f.incoming })
  else
    (.NewMessage, { f with incoming := (msg, route) :: f.incoming })

/-- Modelled from the spec: filter_outgoing prevents re-sending an
identical message+peer+route combination; it reports whether the
combination was already sent and records it. -/
def RoutingMessageFilter.filter_outgoing (f : RoutingMessageFilter)
    (msg : RoutingMessage) (peer : PeerId) (route : Nat) :
    Bool × RoutingMessageFilter :=
  if (msg, peer, route) ∈ f.outgoing then
    (true, f)
  else
    (false, { f with outgoing := (msg, peer, route) :: f.outgoing })

/-- One pending acknowledgment entry (ack_manager::UnacknowledgedMessage):
the message, the route it went out on, the retry timer token and the retry
count so far. -/
structure UnackedMessage where
  routing_msg : RoutingMessage
  route : Nat
  timer_token : Nat
  retries : Nat
deriving DecidableEq

/-- Modelled from the spec: the acknowledgment manager tracks messages sent
that still await an acknowledgment, keyed by the Ack identity. -/
structure AckManager where
  pending : List (Ack × UnackedMessage)
deriving DecidableEq

def AckManager.new : AckManager :=
  ⟨[]⟩

/-- Modelled from the spec: receive matches an incoming Ack against pending
entries by message identity; on match the entry is removed (cancelling its
timer); unmatched, duplicate or late acks are ignored. -/
def AckManager.receive (m : AckManager) (ack : Ack) : AckManager :=
  ⟨m.pending.filter (fun p => p.1 != ack)⟩

/-- Modelled from the spec: locate the pending entry whose retry timer
token fired, removing it from the pending set; a token matching no entry
(for example one whose entry was cancelled by an acknowledgment) finds
nothing. -/
def AckManager.find_timed_out (m : AckManager) (token : Nat) :
    Option (Ack × UnackedMessage) × AckManager :=
  match m.pending.find? (fun p => p.2.timer_token == token) with
  | none => (none, m)
  | some p => (some p, ⟨m.pending.filter (fun q => q != p)⟩)

/-- Modelled from the spec: the timer schedules opaque tokens compared only
for equality against tokens the handler itself issued; modelled as a
counter handing out fresh tokens. The duration argument (in seconds) does
not influence token identity. -/
structure Timer where
  next_token : Nat
deriving DecidableEq

def Timer.schedule (t : Timer) (_duration_secs : Nat) : Nat × Timer :=
  (t.next_token, ⟨t.next_token + 1⟩)

/-- Modelled from the spec: the statistics collector (stats::Stats),
reduced to the counters the JoiningNode paths touch. -/
structure Stats where
  routes_counted : Nat
  unacked_dropped : Nat
deriving DecidableEq

def Stats.new : Stats :=
  ⟨0, 0⟩

def Stats.count_route (s : Stats) (_route : Nat) : Stats :=
  ⟨s.routes_counted + 1, s.unacked_dropped⟩

def Stats.count_unacked (s : Stats) : Stats :=
  ⟨s.routes_counted, s.unacked_dropped + 1⟩

/-- The process-level events emitted through the outbox (event::Event),
restricted to the ones the JoiningNode paths emit. -/
inductive Event where
  | RestartRequired
  | Terminate
deriving DecidableEq

/-- The transition instruction a state handler returns to the state machine
(state_machine::Transition), restricted to the variants the JoiningNode
returns. -/
inductive Transition where
  | Stay
  | IntoBootstrapping (new_id : FullId) (our_section : List PublicId)
  | Terminate
deriving DecidableEq

/-- The error surfaced on the reply channel of an Action that is illegal in
the current state (error::InterfaceError). -/
inductive InterfaceError where
  | InvalidState
deriving DecidableEq

/-- The external command ingress (action::Action). The embedded one-shot
reply channels are modelled by the reply value the handler sends, returned
alongside the transition; the opaque payloads (UserMessage, Request, the
resource proof messages) are modelled as numbers since the JoiningNode
handler never inspects them. -/
inductive Action where
  | NodeSendMessage (src : Authority) (dst : Authority) (content : Nat) (priority : Nat)
  | ClientSendRequest (content : Nat) (dst : Authority) (priority : Nat)
  | Name
  | Timeout (token : Nat)
  | ResourceProofResult (peer : PeerId) (payload : Nat)
  | Terminate
deriving DecidableEq

/-- What the handler sent down a one-shot reply channel while processing an
Action. -/
inductive ActionReply where
  | interfaceResult (r : Option InterfaceError)
  | nameResult (n : XorName)
deriving DecidableEq

/-- Modelled from the spec: the known duration of the resource-proof step
of the network (resource_prover::RESOURCE_PROOF_DURATION_SECS, an external
constant). -/
def RESOURCE_PROOF_DURATION_SECS : Nat := 300

/-- Time (in seconds) after which a Relocate request is resent
(src/states/joining_node.rs). -/
def RELOCATE_TIMEOUT_SECS : Nat := 60 + RESOURCE_PROOF_DURATION_SECS

/-- Modelled from the spec: the per-route acknowledgment retry window
(ack_manager, an external constant). -/
def ACK_TIMEOUT_SECS : Nat := 20

/-- Modelled from the spec: the bounded retry count of the acknowledgment
manager; the spec leaves the bound as a configuration parameter. -/
def MAX_ACK_RETRIES : Nat := 8

/-- Cantor pairing based numeric encoding of an Authority, used by the
modelled message hash. -/
def encodeAuthority : Authority → Nat
  | .Client k n p => Nat.pair 0 (Nat.pair k (Nat.pair n p))
  | .Section n => Nat.pair 1 n
  | .ManagedNode n => Nat.pair 2 n

def encodePublicId (p : PublicId) : Nat :=
  Nat.pair p.name p.sign_key

def encodeContent : MessageContent → Nat
  | .Relocate pid mid => Nat.pair 0 (Nat.pair (encodePublicId pid) mid)
  | .ExpectCandidate n => Nat.pair 1 n
  | .ConnectionInfoRequest n => Nat.pair 2 n
  | .ConnectionInfoResponse n => Nat.pair 3 n
  | .SectionUpdate n => Nat.pair 4 n
  | .SectionSplit n => Nat.pair 5 n
  | .OwnSectionMerge n => Nat.pair 6 n
  | .OtherSectionMerge n => Nat.pair 7 n
  | .UserMessagePart n => Nat.pair 8 n
  | .AcceptAsCandidate n => Nat.pair 9 n
  | .CandidateApproval n => Nat.pair 10 n
  | .NodeApproval n => Nat.pair 11 n
  | .Ack a p => Nat.pair 12 (Nat.pair a p)
  | .RelocateResponse iv sec =>
    Nat.pair 13 (Nat.pair (Nat.pair iv.1 iv.2)
      (sec.foldr (fun p acc => Nat.pair (encodePublicId p) acc) 0))

/-- Modelled from the spec: Ack::compute hashes the identity (content,
source, destination) of the acknowledged RoutingMessage; the external hash
is modelled as a numeric encoding. -/
def Ack.compute (msg : RoutingMessage) : Ack :=
  Nat.pair (encodeAuthority msg.src)
    (Nat.pair (encodeAuthority msg.dst) (encodeContent msg.content))

/-- Modelled from the spec: RoutingMessage::ack_from builds the
acknowledgment response for a received message: sourced at the given
authority, destined back to the source of the message, carrying the Ack
hash of the message. -/
def RoutingMessage.ack_from (routing_msg : RoutingMessage) (src : Authority) :
    RoutingMessage :=
  ⟨src, routing_msg.src, .Ack (Ack.compute routing_msg) routing_msg.priority⟩

/-- The JoiningNode state handler (src/states/joining_node.rs). The crust
Service is reduced to its peer id plus the log of transmissions it was
handed; the cache and the action sender are opaque passthroughs and carry
no behavior, so they are omitted. The sent and events fields instrument
the messages handed to the transport (send_or_drop) and the events pushed
to the outbox, in order. -/
structure JoiningNode where
  ack_mgr : AckManager
  crust_service_id : PeerId
  full_id : FullId
  min_section_size : Nat
  proxy_peer_id : PeerId
  proxy_public_id : PublicId
  routing_msg_filter : RoutingMessageFilter
  stats : Stats
  relocation_timer_token : Nat
  timer : Timer
  sent : List (PeerId × SignedMessage × Nat)
  events : List Event
deriving DecidableEq

/-- Base::name — the Address of the own identity. -/
def JoiningNode.name (st : JoiningNode) : XorName :=
  st.full_id.name

/-- Base::in_authority for JoiningNode: the node represents exactly its own
client authority (a Client authority whose key is the own signing key). -/
def JoiningNode.in_authority (st : JoiningNode) (auth : Authority) : Bool :=
  match auth with
  | .Client client_key _ _ => client_key == st.full_id.public_id.sign_key
  | _ => false

/-- Modelled from the spec: add_to_pending (Bootstrapped ::
add_to_pending_acks) registers that this message and route now expect an
acknowledgment, scheduling a retry timer, and reports whether the caller
should proceed to actually transmit; it reports false when an identical
pending entry already exists, preventing duplicate sends. An Ack itself
never awaits an acknowledgment (a PendingAck entry is created only for
messages requiring acknowledgment), so an Ack passes through without
registration. -/
def JoiningNode.add_to_pending_acks (st : JoiningNode)
    (routing_msg : RoutingMessage) (route : Nat) : Bool × JoiningNode :=
  match routing_msg.content with
  | .Ack _ _ => (true, st)
  | _ =>
    let ack := Ack.compute routing_msg
    if st.ack_mgr.pending.any (fun p => p.1 == ack && p.2.route == route) then
      (false, st)
    else
      let sc := st.timer.schedule ACK_TIMEOUT_SECS
      (true, { st with
                 ack_mgr := ⟨(ack, ⟨routing_msg, route, sc.1, 0⟩) :: st.ack_mgr.pending⟩,
                 timer := sc.2 })

/-- Bootstrapped::send_routing_message_via_route for JoiningNode
(src/states/joining_node.rs): counts the route, short-circuits messages
addressed to the own client authority, requires a client source whose proxy
is the known proxy, signs the message, registers the pending
acknowledgment, and transmits to the proxy unless the outgoing filter
reports the combination as already sent. -/
def JoiningNode.send_routing_message_via_route (st : JoiningNode)
    (routing_msg : RoutingMessage) (route : Nat) :
    RoutingResult Unit × JoiningNode :=
  let st := { st with stats := st.stats.count_route route }
  if routing_msg.dst.is_client && st.in_authority routing_msg.dst then
    (.ok (), st)
  else
    match routing_msg.src with
    | .Client _ proxy_node_name _ =>
      if st.proxy_public_id.name = proxy_node_name then
        let proxy_peer_id := st.proxy_peer_id
        let signed_msg := SignedMessage.new routing_msg st.full_id []
        let pa := st.add_to_pending_acks routing_msg route
        if pa.1 then
          let fo := pa.2.routing_msg_filter.filter_outgoing routing_msg proxy_peer_id route
          let st2 := { pa.2 with routing_msg_filter := fo.2 }
          if fo.1 then
            (.ok (), st2)
          else
            (.ok (), { st2 with sent := st2.sent ++ [(proxy_peer_id, signed_msg, route)] })
        else
          (.ok (), pa.2)
      else
        (.error .ProxyConnectionNotFound, st)
    | _ => (.error .InvalidSource, st)

/-- The branch send_routing_message_via_route takes, as a function of the
fields it reads: 0 when the message is addressed to the own client
authority, 1 when it proceeds to the proxy transmission path, 2 when the
client source names an unknown proxy, 3 when the source is not a client.
Used to relate two runs of the send path from states sharing these
fields. -/
def JoiningNode.ack_send_path (st : JoiningNode) (m : RoutingMessage) : Nat :=
  if m.dst.is_client && st.in_authority m.dst then 0
  else
    match m.src with
    | .Client _ proxy_node_name _ =>
      if st.proxy_public_id.name = proxy_node_name then 1 else 2
    | _ => 3

/-- Bootstrapped::send_routing_message: first attempt goes out on route
zero. -/
def JoiningNode.send_routing_message (st : JoiningNode) (src dst : Authority)
    (content : MessageContent) : RoutingResult Unit × JoiningNode :=
  st.send_routing_message_via_route ⟨src, dst, content⟩ 0

/-- Modelled from the spec: Bootstrapped::send_ack acknowledges a received
message back to its source on the given route; an Ack is never itself
acknowledged. Failure to send is logged and dropped. -/
def JoiningNode.send_ack (st : JoiningNode) (routing_msg : RoutingMessage)
    (route : Nat) : JoiningNode :=
  match routing_msg.content with
  | .Ack _ _ => st
  | _ => (st.send_routing_message_via_route (routing_msg.ack_from routing_msg.dst) route).2

/-- JoiningNode::relocate: construct the Relocate request, sourced at the
own client authority (own key, known proxy, own crust service id), destined
to the Section authority responsible for the own current address, and send
it. MessageId::new draws a fresh random id, modelled as the message_id
argument. -/
def JoiningNode.relocate (st : JoiningNode) (message_id : Nat) :
    RoutingResult Unit × JoiningNode :=
  let request_content := MessageContent.Relocate st.full_id.public_id message_id
  let src := Authority.Client st.full_id.public_id.sign_key st.proxy_public_id.name
    st.crust_service_id
  let dst := Authority.Section st.name
  st.send_routing_message src dst request_content

/-- The Relocate request that JoiningNode::relocate constructs: sourced at
the own client authority (own signing key, proxy name, own crust service
id), destined to the Section authority responsible for the own address. -/
def relocate_request (fid : FullId) (ppub : PublicId) (csid : PeerId)
    (mid : Nat) : RoutingMessage :=
  ⟨.Client fid.public_id.sign_key ppub.name csid, .Section fid.name,
    .Relocate fid.public_id mid⟩

/-- The JoiningNode state right after entry: the relocation timer holds
the first token of the given timer, the Relocate request has been
registered with the acknowledgment manager (with a retry timer on the
second token), recorded in the outgoing filter, and handed to the
transport addressed to the proxy on route zero. -/
def after_relocate_state (csid : PeerId) (fid : FullId) (mss : Nat)
    (ppid : PeerId) (ppub : PublicId) (timer : Timer) (mid : Nat) : JoiningNode :=
  { ack_mgr := ⟨[(Ack.compute (relocate_request fid ppub csid mid),
      ⟨relocate_request fid ppub csid mid, 0, timer.next_token + 1, 0⟩)]⟩
    crust_service_id := csid
    full_id := fid
    min_section_size := mss
    proxy_peer_id := ppid
    proxy_public_id := ppub
    routing_msg_filter := ⟨[], [(relocate_request fid ppub csid mid, ppid, 0)]⟩
    stats := ⟨1, 0⟩
    relocation_timer_token := timer.next_token
    timer := ⟨timer.next_token + 1 + 1⟩
    sent := [(ppid, SignedMessage.new (relocate_request fid ppub csid mid) fid [], 0)]
    events := [] }

/-- The struct literal of JoiningNode::from_bootstrapping: fresh
acknowledgment manager and filter, the relocation timer scheduled for
RELOCATE_TIMEOUT_SECS, empty transmission and event logs. -/
def init_joining_node (crust_service_id : PeerId) (full_id : FullId)
    (min_section_size : Nat) (proxy_peer_id : PeerId) (proxy_public_id : PublicId)
    (timer : Timer) : JoiningNode :=
  let sc := timer.schedule RELOCATE_TIMEOUT_SECS
  { ack_mgr := AckManager.new
    crust_service_id := crust_service_id
    full_id := full_id
    min_section_size := min_section_size
    proxy_peer_id := proxy_peer_id
    proxy_public_id := proxy_public_id
    routing_msg_filter := RoutingMessageFilter.new
    stats := Stats.new
    relocation_timer_token := sc.1
    timer := sc.2
    sent := []
    events := [] }

/-- JoiningNode::from_bootstrapping: build the state, immediately send the
Relocate request, and abort entry into the state (returning none) when that
fails. -/
def JoiningNode.from_bootstrapping (crust_service_id : PeerId) (full_id : FullId)
    (min_section_size : Nat) (proxy_peer_id : PeerId) (proxy_public_id : PublicId)
    (timer : Timer) (message_id : Nat) : Option JoiningNode :=
  let jn := init_joining_node crust_service_id full_id min_section_size proxy_peer_id
    proxy_public_id timer
  match jn.relocate message_id with
  | (.ok _, jn2) => some jn2
  | (.error _, _) => none

/-- JoiningNode::handle_ack_response. -/
def JoiningNode.handle_ack_response (st : JoiningNode) (ack : Ack) : JoiningNode :=
  { st with ack_mgr := st.ack_mgr.receive ack }

/-- JoiningNode::handle_relocate_response: draw a wholly new identity
within the target interval and instruct the state machine to transition
back toward Bootstrapping, carrying the candidate section membership. -/
def JoiningNode.handle_relocate_response (st : JoiningNode)
    (target_interval : XorName × XorName) (sec : List PublicId) (seed : Nat) :
    Transition × JoiningNode :=
  (.IntoBootstrapping (FullId.within_range target_interval.1 target_interval.2 seed) sec, st)

/-- JoiningNode::dispatch_routing_message: acknowledgments update the
acknowledgment manager, a RelocateResponse causes the transition back
toward Bootstrapping, and every other content variant is logged and
dropped. The seed models the randomness of the fresh identity drawn on a
RelocateResponse. -/
def JoiningNode.dispatch_routing_message (st : JoiningNode)
    (routing_msg : RoutingMessage) (seed : Nat) : Transition × JoiningNode :=
  match routing_msg.content with
  | .Relocate _ _ => (.Stay, st)
  | .ExpectCandidate _ => (.Stay, st)
  | .ConnectionInfoRequest _ => (.Stay, st)
  | .ConnectionInfoResponse _ => (.Stay, st)
  | .SectionUpdate _ => (.Stay, st)
  | .SectionSplit _ => (.Stay, st)
  | .OwnSectionMerge _ => (.Stay, st)
  | .OtherSectionMerge _ => (.Stay, st)
  | .UserMessagePart _ => (.Stay, st)
  | .AcceptAsCandidate _ => (.Stay, st)
  | .CandidateApproval _ => (.Stay, st)
  | .NodeApproval _ => (.Stay, st)
  | .Ack ack _ => (.Stay, st.handle_ack_response ack)
  | .RelocateResponse target_interval sec =>
    st.handle_relocate_response target_interval sec seed

/-- JoiningNode::handle_hop_message: accept only the known proxy peer,
verify the outer hop signature with the proxy public key, check the inner
integrity against the minimum section size, acknowledge messages addressed
to the own client authority, drop duplicates through the routing message
filter, and dispatch new messages addressed to this node. -/
def JoiningNode.handle_hop_message (st : JoiningNode) (hop_msg : HopMessage)
    (peer_id : PeerId) (seed : Nat) : RoutingResult Transition × JoiningNode :=
  if st.proxy_peer_id = peer_id then
    match hop_msg.verify st.proxy_public_id.sign_key with
    | .error e => (.error e, st)
    | .ok _ =>
      let signed_msg := hop_msg.content
      match signed_msg.check_integrity st.min_section_size with
      | .error e => (.error e, st)
      | .ok _ =>
        let routing_msg := signed_msg.routing_message
        let in_auth := st.in_authority routing_msg.dst
        let st1 := if in_auth then st.send_ack routing_msg 0 else st
        let fr := st1.routing_msg_filter.filter_incoming routing_msg hop_msg.route
        let st2 := { st1 with routing_msg_filter := fr.2 }
        match fr.1 with
        | .KnownMessage => (.error .FilterCheckFailed, st2)
        | .KnownMessageAndRoute => (.error .FilterCheckFailed, st2)
        | .NewMessage =>
          if in_auth then
            let td := st2.dispatch_routing_message routing_msg seed
            (.ok td.1, td.2)
          else
            (.ok .Stay, st2)
  else
    (.error (.UnknownConnection peer_id), st)

/-- Modelled from the spec: Bootstrapped ::
resend_unacknowledged_timed_out_msgs — when a scheduled timer fires, if a
pending entry matches the token the original message is re-signed and
re-sent on the same route with a fresh retry timer; once the bounded retry
count is exceeded the message is dropped and surfaced as undeliverable,
never a crash. -/
def JoiningNode.resend_unacknowledged_timed_out_msgs (st : JoiningNode)
    (token : Nat) : JoiningNode :=
  match st.ack_mgr.find_timed_out token with
  | (none, _) => st
  | (some (ack, unacked), rest) =>
    if MAX_ACK_RETRIES ≤ unacked.retries then
      { st with ack_mgr := rest, stats := st.stats.count_unacked }
    else
      let sc := st.timer.schedule ACK_TIMEOUT_SECS
      let signed_msg := SignedMessage.new unacked.routing_msg st.full_id []
      let unacked2 : UnackedMessage :=
        ⟨unacked.routing_msg, unacked.route, sc.1, unacked.retries + 1⟩
      { st with
          ack_mgr := ⟨(ack, unacked2) :: rest.pending⟩,
          timer := sc.2,
          sent := st.sent ++ [(st.proxy_peer_id, signed_msg, unacked.route)] }

/-- JoiningNode::handle_timeout: the registered relocation token emits
RestartRequired and terminates; every other token is delegated to the
acknowledgment manager resend logic. -/
def JoiningNode.handle_timeout (st : JoiningNode) (token : Nat) :
    Transition × JoiningNode :=
  if st.relocation_timer_token = token then
    (.Terminate, { st with events := st.events ++ [.RestartRequired] })
  else
    (.Stay, st.resend_unacknowledged_timed_out_msgs token)

/-- Base::handle_lost_peer for JoiningNode: a LostPeer carrying the own
crust service id is logged and ignored; losing the proxy emits the
Terminate event and terminates; losing any other peer is ignored. -/
def JoiningNode.handle_lost_peer (st : JoiningNode) (peer_id : PeerId) :
    Transition × JoiningNode :=
  if peer_id = st.crust_service_id then
    (.Stay, st)
  else if st.proxy_peer_id = peer_id then
    (.Terminate, { st with events := st.events ++ [.Terminate] })
  else
    (.Stay, st)

/-- JoiningNode::handle_action: send requests are rejected with
InvalidState on their reply channel, Name answers the current address,
Timeout is dispatched to the timeout logic, ResourceProofResult only warns,
Terminate yields the terminal transition. -/
def JoiningNode.handle_action (st : JoiningNode) (action : Action) :
    Transition × JoiningNode × Option ActionReply :=
  match action with
  | .NodeSendMessage _ _ _ _ =>
    (.Stay, st, some (.interfaceResult (some .InvalidState)))
  | .ClientSendRequest _ _ _ =>
    (.Stay, st, some (.interfaceResult (some .InvalidState)))
  | .Name =>
    (.Stay, st, some (.nameResult st.name))
  | .Timeout token =>
    let ht := st.handle_timeout token
    match ht.1 with
    | .Terminate => (.Terminate, ht.2, none)
    | _ => (.Stay, ht.2, none)
  | .ResourceProofResult _ _ =>
    (.Stay, st, none)
  | .Terminate =>
    (.Terminate, st, none)

/-! Concrete fixtures used by the witness theorems. -/

/-- A concrete JoiningNode state: own identity at address 5 with key 7,
proxy peer 2 with address 9 and key 11, own crust service id 1. -/
def testState : JoiningNode :=
  { ack_mgr := AckManager.new
    crust_service_id := 1
    full_id := ⟨⟨5, 7⟩⟩
    min_section_size := 8
    proxy_peer_id := 2
    proxy_public_id := ⟨9, 11⟩
    routing_msg_filter := RoutingMessageFilter.new
    stats := Stats.new
    relocation_timer_token := 0
    timer := ⟨1⟩
    sent := []
    events := [] }

/-- A concrete state whose proxy peer id coincides with the own crust
service id. -/
def testStateSelfProxy : JoiningNode :=
  { testState with proxy_peer_id := 1 }

/-- A section-sourced message addressed to the client authority of
testState. -/
def testRoutingMessage : RoutingMessage :=
  ⟨.Section 3, .Client 7 9 1, .SectionUpdate 0⟩

/-- testRoutingMessage signed by a full quorum (five of eight). -/
def testSignedMessage : SignedMessage :=
  ⟨testRoutingMessage, [⟨21, true⟩, ⟨22, true⟩, ⟨23, true⟩, ⟨24, true⟩, ⟨25, true⟩]⟩

/-- testSignedMessage wrapped with a valid hop signature of the proxy of
testState. -/
def testHop : HopMessage :=
  ⟨testSignedMessage, 0, ⟨11, true⟩⟩

/-- testRoutingMessage signed by a single node: not enough signatures for
the quorum. -/
def testBadSignedMessage : SignedMessage :=
  ⟨testRoutingMessage, [⟨21, true⟩]⟩

/-- testBadSignedMessage wrapped with a valid hop signature of the proxy
of testState. -/
def testBadHop : HopMessage :=
  ⟨testBadSignedMessage, 0, ⟨11, true⟩⟩

/-- A RelocateResponse with target interval from 10 to 20, addressed to
the client authority of testState. -/
def testRelocateResponse : RoutingMessage :=
  ⟨.Section 3, .Client 7 9 1, .RelocateResponse (10, 20) [⟨12, 13⟩]⟩

/-! Helper lemmas. -/

/-- The resend logic touches only the acknowledgment manager, the timer,
the statistics and the transmission log: the event log, the relocation
timer token and the identity fields are untouched. -/
theorem resend_unacked_frame (st : JoiningNode) (token : Nat) :
    (st.resend_unacknowledged_timed_out_msgs token).events = st.events ∧
    (st.resend_unacknowledged_timed_out_msgs token).relocation_timer_token
      = st.relocation_timer_token ∧
    (st.resend_unacknowledged_timed_out_msgs token).full_id = st.full_id := by
  unfold JoiningNode.resend_unacknowledged_timed_out_msgs
  split
  · exact ⟨rfl, rfl, rfl⟩
  · split
    · exact ⟨rfl, rfl, rfl⟩
    · exact ⟨rfl, rfl, rfl⟩

/-- in_authority reads only the identity of the state. -/
theorem in_authority_congr (st st2 : JoiningNode) (h : st2.full_id = st.full_id)
    (a : Authority) : st2.in_authority a = st.in_authority a := by
  cases a <;> simp [JoiningNode.in_authority, h]

/-- add_to_pending_acks touches only the acknowledgment manager and the
timer. -/
theorem add_to_pending_acks_shape (st : JoiningNode) (m : RoutingMessage) (r : Nat) :
    ∃ a t, (st.add_to_pending_acks m r).2 = { st with ack_mgr := a, timer := t } := by
  unfold JoiningNode.add_to_pending_acks
  split
  · exact ⟨st.ack_mgr, st.timer, rfl⟩
  · dsimp only
    split
    · exact ⟨st.ack_mgr, st.timer, rfl⟩
    · exact ⟨_, _, rfl⟩

/-- filter_incoming records the (message, route) pair it classified. -/
theorem filter_incoming_mem (f : RoutingMessageFilter) (m : RoutingMessage) (r : Nat) :
    (m, r) ∈ ((f.filter_incoming m r).2).incoming := by
  unfold RoutingMessageFilter.filter_incoming
  split
  · assumption
  · split <;> exact List.mem_cons_self _ _

/-- filter_incoming never changes the outgoing seen-set. -/
theorem filter_incoming_outgoing (f : RoutingMessageFilter) (m : RoutingMessage) (r : Nat) :
    ((f.filter_incoming m r).2).outgoing = f.outgoing := by
  unfold RoutingMessageFilter.filter_incoming
  split
  · rfl
  · split <;> rfl

/-- A (message, route) pair already in the seen-set is classified
KnownMessageAndRoute with the filter unchanged. -/
theorem filter_incoming_known (f : RoutingMessageFilter) (m : RoutingMessage) (r : Nat)
    (h : (m, r) ∈ f.incoming) : f.filter_incoming m r = (.KnownMessageAndRoute, f) := by
  unfold RoutingMessageFilter.filter_incoming
  rw [if_pos h]

/-- filter_outgoing records the combination it classified. -/
theorem filter_outgoing_mem (f : RoutingMessageFilter) (m : RoutingMessage)
    (p : PeerId) (r : Nat) : (m, p, r) ∈ ((f.filter_outgoing m p r).2).outgoing := by
  unfold RoutingMessageFilter.filter_outgoing
  split
  · assumption
  · exact List.mem_cons_self _ _

/-- filter_outgoing never changes the incoming seen-set. -/
theorem filter_outgoing_incoming (f : RoutingMessageFilter) (m : RoutingMessage)
    (p : PeerId) (r : Nat) : ((f.filter_outgoing m p r).2).incoming = f.incoming := by
  unfold RoutingMessageFilter.filter_outgoing
  split <;> rfl

/-- dispatch_routing_message touches only the acknowledgment manager. -/
theorem dispatch_frame (st : JoiningNode) (m : RoutingMessage) (seed : Nat) :
    ∃ a, (st.dispatch_routing_message m seed).2 = { st with ack_mgr := a } := by
  unfold JoiningNode.dispatch_routing_message JoiningNode.handle_ack_response
    JoiningNode.handle_relocate_response
  split <;> exact ⟨_, rfl⟩

/-- The send path preserves the identity, the proxy fields, the minimum
section size and the incoming seen-set. -/
theorem send_via_route_frame (st : JoiningNode) (m : RoutingMessage) (r : Nat) :
    ((st.send_routing_message_via_route m r).2).full_id = st.full_id ∧
    ((st.send_routing_message_via_route m r).2).proxy_peer_id = st.proxy_peer_id ∧
    ((st.send_routing_message_via_route m r).2).proxy_public_id = st.proxy_public_id ∧
    ((st.send_routing_message_via_route m r).2).min_section_size = st.min_section_size ∧
    ((st.send_routing_message_via_route m r).2).routing_msg_filter.incoming
      = st.routing_msg_filter.incoming := by
  unfold JoiningNode.send_routing_message_via_route
  dsimp only
  split
  · exact ⟨rfl, rfl, rfl, rfl, rfl⟩
  · split
    · split
      · obtain ⟨a, t, hpa⟩ :=
          add_to_pending_acks_shape { st with stats := st.stats.count_route r } m r
        rw [hpa]
        dsimp only
        split
        · split
          · exact ⟨rfl, rfl, rfl, rfl, filter_outgoing_incoming _ _ _ _⟩
          · exact ⟨rfl, rfl, rfl, rfl, filter_outgoing_incoming _ _ _ _⟩
        · exact ⟨rfl, rfl, rfl, rfl, rfl⟩
      · exact ⟨rfl, rfl, rfl, rfl, rfl⟩
    · exact ⟨rfl, rfl, rfl, rfl, rfl⟩

/-- send_ack preserves the identity, the proxy fields, the minimum section
size and the incoming seen-set. -/
theorem send_ack_frame (st : JoiningNode) (m : RoutingMessage) (r : Nat) :
    ((st.send_ack m r)).full_id = st.full_id ∧
    ((st.send_ack m r)).proxy_peer_id = st.proxy_peer_id ∧
    ((st.send_ack m r)).proxy_public_id = st.proxy_public_id ∧
    ((st.send_ack m r)).min_section_size = st.min_section_size ∧
    ((st.send_ack m r)).routing_msg_filter.incoming
      = st.routing_msg_filter.incoming := by
  unfold JoiningNode.send_ack
  split
  · exact ⟨rfl, rfl, rfl, rfl, rfl⟩
  · exact send_via_route_frame st _ r

/-- The branch discriminator of the send path reads only the identity and
the proxy public id. -/
theorem ack_send_path_congr (st st2 : JoiningNode) (m : RoutingMessage)
    (hfid : st2.full_id = st.full_id)
    (hppu : st2.proxy_public_id = st.proxy_public_id) :
    st2.ack_send_path m = st.ack_send_path m := by
  unfold JoiningNode.ack_send_path
  rw [in_authority_congr st st2 hfid]
  cases hsrc : m.src <;> simp [hppu]

/-- An if whose condition is the true Boolean takes its first branch. -/
theorem ite_true_cond {α : Sort*} [Decidable ((true : Bool) = true)] (a b : α) :
    (if (true : Bool) = true then a else b) = a := by
  split
  · rfl
  · next h => exact absurd rfl h

/-- An if whose condition is the false Boolean takes its second branch. -/
theorem ite_false_cond {α : Sort*} [Decidable ((false : Bool) = true)] (a b : α) :
    (if (false : Bool) = true then a else b) = b := by
  split
  · next h => exact absurd h (by simp)
  · rfl

/-- On every branch other than the proxy transmission path, sending an
acknowledgment-content message only counts the route in the statistics. -/
theorem send_via_route_ack_not1 (st : JoiningNode) (m : RoutingMessage) (r : Nat)
    (a p : Nat) (hm : m.content = .Ack a p) (hpath : st.ack_send_path m ≠ 1) :
    ∃ σ, (st.send_routing_message_via_route m r).2 = { st with stats := σ } := by
  unfold JoiningNode.send_routing_message_via_route
  dsimp only
  set stS := { st with stats := st.stats.count_route r } with hS
  have hfidS : stS.full_id = st.full_id := by rw [hS]
  have hppuS : stS.proxy_public_id = st.proxy_public_id := by rw [hS]
  have hpathS : stS.ack_send_path m ≠ 1 := by
    rw [ack_send_path_congr st stS m hfidS hppuS]
    exact hpath
  unfold JoiningNode.ack_send_path at hpathS
  by_cases hc1 : (m.dst.is_client && stS.in_authority m.dst) = true
  · rw [if_pos hc1]
    exact ⟨_, hS⟩
  · rw [if_neg hc1] at hpathS ⊢
    rcases hsrc : m.src with ⟨ck, pname, pid⟩ | n | n <;> dsimp only
    · rw [hsrc] at hpathS
      dsimp only at hpathS
      by_cases hpn : st.proxy_public_id.name = pname
      · rw [if_pos hpn] at hpathS
        exact absurd rfl hpathS
      · rw [if_neg hpn]
        exact ⟨_, hS⟩
    · exact ⟨_, hS⟩
    · exact ⟨_, hS⟩

/-- On the proxy transmission path, sending an acknowledgment-content
message counts the route, records the combination in the outgoing seen-set
and transmits it, except that a combination already recorded is suppressed
and leaves both the filter and the transmission log unchanged; the
acknowledgment manager, the timer, the event log and the incoming seen-set
are never touched. -/
theorem send_via_route_ack_path1 (st : JoiningNode) (m : RoutingMessage) (r : Nat)
    (a p : Nat) (hm : m.content = .Ack a p) (hpath : st.ack_send_path m = 1) :
    ∃ σ g s, (st.send_routing_message_via_route m r).2
        = { st with stats := σ, routing_msg_filter := g, sent := s } ∧
      (m, st.proxy_peer_id, r) ∈ g.outgoing ∧
      g.incoming = st.routing_msg_filter.incoming ∧
      ((m, st.proxy_peer_id, r) ∈ st.routing_msg_filter.outgoing →
        g = st.routing_msg_filter ∧ s = st.sent) := by
  unfold JoiningNode.send_routing_message_via_route
  dsimp only
  set stS := { st with stats := st.stats.count_route r } with hS
  have hfidS : stS.full_id = st.full_id := by rw [hS]
  have hppuS : stS.proxy_public_id = st.proxy_public_id := by rw [hS]
  have hppiS : stS.proxy_peer_id = st.proxy_peer_id := by rw [hS]
  have hfilS : stS.routing_msg_filter = st.routing_msg_filter := by rw [hS]
  have hpathS : stS.ack_send_path m = 1 := by
    rw [ack_send_path_congr st stS m hfidS hppuS]
    exact hpath
  unfold JoiningNode.ack_send_path at hpathS
  by_cases hc1 : (m.dst.is_client && stS.in_authority m.dst) = true
  · rw [if_pos hc1] at hpathS
    exact absurd hpathS (by simp)
  · rw [if_neg hc1] at hpathS ⊢
    rcases hsrc : m.src with ⟨ck, pname, pid⟩ | n | n <;> dsimp only
    · rw [hsrc] at hpathS
      dsimp only at hpathS
      by_cases hpn : st.proxy_public_id.name = pname
      · rw [if_pos hpn]
        have hadd : stS.add_to_pending_acks m r = (true, stS) := by
          unfold JoiningNode.add_to_pending_acks
          rw [hm]
        rw [hadd]
        dsimp only
        rw [ite_true_cond, hfilS]
        by_cases hmem : (m, st.proxy_peer_id, r) ∈ st.routing_msg_filter.outgoing
        · have hfo : st.routing_msg_filter.filter_outgoing m st.proxy_peer_id r
              = (true, st.routing_msg_filter) := by
            unfold RoutingMessageFilter.filter_outgoing
            rw [if_pos hmem]
          rw [hfo]
          dsimp only
          rw [ite_true_cond]
          refine ⟨st.stats.count_route r, st.routing_msg_filter, st.sent, ?_, hmem,
            rfl, fun _ => ⟨rfl, rfl⟩⟩
          rfl
        · have hfo : st.routing_msg_filter.filter_outgoing m st.proxy_peer_id r
              = (false, ⟨st.routing_msg_filter.incoming,
                  (m, st.proxy_peer_id, r) :: st.routing_msg_filter.outgoing⟩) := by
            unfold RoutingMessageFilter.filter_outgoing
            rw [if_neg hmem]
          rw [hfo]
          dsimp only
          rw [ite_false_cond]
          refine ⟨st.stats.count_route r,
            ⟨st.routing_msg_filter.incoming,
              (m, st.proxy_peer_id, r) :: st.routing_msg_filter.outgoing⟩,
            st.sent ++ [(st.proxy_peer_id, SignedMessage.new m st.full_id [], r)],
            ?_, List.mem_cons_self _ _, rfl, fun h => absurd h hmem⟩
          rfl
      · rw [if_neg hpn] at hpathS
        exact absurd hpathS (by simp)
    · rw [hsrc] at hpathS
      dsimp only at hpathS
      exact absurd hpathS (by simp)
    · rw [hsrc] at hpathS
      dsimp only at hpathS
      exact absurd hpathS (by simp)

/-- Re-running send_ack for the same message from a state that agrees with
the post-send state on the identity, the proxy fields and the outgoing
seen-set transmits nothing, registers nothing and emits nothing: the
transmission log, the acknowledgment manager and the event log are
unchanged. -/
theorem send_ack_replay (st stF : JoiningNode) (m : RoutingMessage)
    (hfid : stF.full_id = st.full_id)
    (hppi : stF.proxy_peer_id = st.proxy_peer_id)
    (hppu : stF.proxy_public_id = st.proxy_public_id)
    (hout : stF.routing_msg_filter.outgoing
      = ((st.send_ack m 0).routing_msg_filter).outgoing) :
    (stF.send_ack m 0).sent = stF.sent ∧
    (stF.send_ack m 0).ack_mgr = stF.ack_mgr ∧
    (stF.send_ack m 0).events = stF.events := by
  unfold JoiningNode.send_ack at hout ⊢
  cases hc : m.content
  case Ack a p => exact ⟨rfl, rfl, rfl⟩
  all_goals (
    rw [hc] at hout
    dsimp only at hout ⊢
    have hpeq : stF.ack_send_path (m.ack_from m.dst) = st.ack_send_path (m.ack_from m.dst) :=
      ack_send_path_congr st stF (m.ack_from m.dst) hfid hppu
    by_cases h1 : st.ack_send_path (m.ack_from m.dst) = 1
    · obtain ⟨σ, g, s, hupd, hmemg, hginc, hdup⟩ :=
        send_via_route_ack_path1 st (m.ack_from m.dst) 0 (Ack.compute m) m.priority rfl h1
      obtain ⟨σ2, g2, s2, hupd2, hmemg2, hginc2, hdup2⟩ :=
        send_via_route_ack_path1 stF (m.ack_from m.dst) 0 (Ack.compute m) m.priority rfl
          (hpeq.trans h1)
      rw [hupd] at hout
      have hmemF : (m.ack_from m.dst, stF.proxy_peer_id, 0)
          ∈ stF.routing_msg_filter.outgoing := by
        rw [hppi, hout]
        exact hmemg
      obtain ⟨hg2, hs2⟩ := hdup2 hmemF
      rw [hupd2]
      exact ⟨hs2, rfl, rfl⟩
    · obtain ⟨σ2, hupd2⟩ :=
        send_via_route_ack_not1 stF (m.ack_from m.dst) 0 (Ack.compute m) m.priority rfl
          (fun h => h1 (hpeq.symm.trans h))
      rw [hupd2]
      exact ⟨rfl, rfl, rfl⟩)

/-- A hop message from the proxy that passes verification and integrity
leaves the handler in the post-acknowledgment state with only the
acknowledgment manager and the routing message filter further updated; the
filter records the (message, route) pair and its outgoing seen-set is
unchanged from the post-acknowledgment state. -/
theorem handle_hop_message_state (st : JoiningNode) (hop_msg : HopMessage)
    (peer_id : PeerId) (seed : Nat)
    (hpeer : peer_id = st.proxy_peer_id)
    (hver : hop_msg.verify st.proxy_public_id.sign_key = .ok ())
    (hint : hop_msg.content.check_integrity st.min_section_size = .ok ()) :
    ∃ a g,
      (st.handle_hop_message hop_msg peer_id seed).2
        = { (if st.in_authority hop_msg.content.routing_message.dst
             then st.send_ack hop_msg.content.routing_message 0 else st) with
            ack_mgr := a, routing_msg_filter := g } ∧
      (hop_msg.content.routing_message, hop_msg.route) ∈ g.incoming ∧
      g.outgoing = (if st.in_authority hop_msg.content.routing_message.dst
             then st.send_ack hop_msg.content.routing_message 0
             else st).routing_msg_filter.outgoing := by
  unfold JoiningNode.handle_hop_message
  rw [if_pos hpeer.symm, hver]
  dsimp only
  rw [hint]
  dsimp only
  rcases hfr : ((if st.in_authority hop_msg.content.routing_message.dst
      then st.send_ack hop_msg.content.routing_message 0
      else st).routing_msg_filter.filter_incoming hop_msg.content.routing_message
      hop_msg.route) with ⟨res, g0⟩
  have hmem0 : (hop_msg.content.routing_message, hop_msg.route) ∈ g0.incoming := by
    have h := filter_incoming_mem
      (if st.in_authority hop_msg.content.routing_message.dst
       then st.send_ack hop_msg.content.routing_message 0
       else st).routing_msg_filter hop_msg.content.routing_message hop_msg.route
    rw [hfr] at h
    exact h
  have hout0 : g0.outgoing
      = (if st.in_authority hop_msg.content.routing_message.dst
         then st.send_ack hop_msg.content.routing_message 0
         else st).routing_msg_filter.outgoing := by
    have h := filter_incoming_outgoing
      (if st.in_authority hop_msg.content.routing_message.dst
       then st.send_ack hop_msg.content.routing_message 0
       else st).routing_msg_filter hop_msg.content.routing_message hop_msg.route
    rw [hfr] at h
    exact h
  cases res
  case NewMessage =>
    dsimp only
    by_cases hia : st.in_authority hop_msg.content.routing_message.dst = true
    · rw [if_pos hia]
      obtain ⟨ad, hd⟩ := dispatch_frame
        { (if st.in_authority hop_msg.content.routing_message.dst
           then st.send_ack hop_msg.content.routing_message 0 else st) with
          routing_msg_filter := g0 } hop_msg.content.routing_message seed
      dsimp only at hd
      rw [hd]
      exact ⟨ad, g0, rfl, hmem0, hout0⟩
    · rw [if_neg hia]
      exact ⟨_, g0, rfl, hmem0, hout0⟩
  case KnownMessage =>
    exact ⟨_, g0, rfl, hmem0, hout0⟩
  case KnownMessageAndRoute =>
    exact ⟨_, g0, rfl, hmem0, hout0⟩

/-- A hop message from the proxy that passes verification and integrity,
whose (message, route) pair is already recorded by the time the filter is
consulted, is dropped with FilterCheckFailed; the only state change is the
acknowledgment attempt made before the filter check. -/
theorem handle_hop_message_known (s : JoiningNode) (hop_msg : HopMessage)
    (peer_id : PeerId) (seed : Nat)
    (hpeer : peer_id = s.proxy_peer_id)
    (hver : hop_msg.verify s.proxy_public_id.sign_key = .ok ())
    (hint : hop_msg.content.check_integrity s.min_section_size = .ok ())
    (hmem : (hop_msg.content.routing_message, hop_msg.route)
      ∈ (if s.in_authority hop_msg.content.routing_message.dst
         then s.send_ack hop_msg.content.routing_message 0
         else s).routing_msg_filter.incoming) :
    s.handle_hop_message hop_msg peer_id seed
      = (.error .FilterCheckFailed,
         if s.in_authority hop_msg.content.routing_message.dst
         then s.send_ack hop_msg.content.routing_message 0 else s) := by
  unfold JoiningNode.handle_hop_message
  rw [if_pos hpeer.symm, hver]
  dsimp only
  rw [hint]
  dsimp only
  rw [filter_incoming_known _ _ _ hmem]

/-! Claim theorems. -/

/-- C1: a RoutingMessage delivered twice verbatim on the same route from
the proxy, both deliveries passing outer hop verification and the
integrity check, is filtered on the second delivery as
KnownMessageAndRoute and dropped with FilterCheckFailed, with no duplicate
side effect: the outgoing filter suppresses a second acknowledgment
transmission (the transmission log is unchanged), dispatch is not reached
(the acknowledgment manager is unchanged and the call errors before
dispatch), and no event is emitted. -/
theorem handle_hop_message_replay (st : JoiningNode) (hop_msg : HopMessage)
    (peer_id : PeerId) (seed seed2 : Nat)
    (hpeer : peer_id = st.proxy_peer_id)
    (hver : hop_msg.verify st.proxy_public_id.sign_key = .ok ())
    (hint : hop_msg.content.check_integrity st.min_section_size = .ok ()) :
    ((st.handle_hop_message hop_msg peer_id seed).2.handle_hop_message hop_msg peer_id
        seed2).1 = .error .FilterCheckFailed ∧
    ((st.handle_hop_message hop_msg peer_id seed).2.routing_msg_filter.filter_incoming
        hop_msg.content.routing_message hop_msg.route).1 = .KnownMessageAndRoute ∧
    ((st.handle_hop_message hop_msg peer_id seed).2.handle_hop_message hop_msg peer_id
        seed2).2.sent
      = (st.handle_hop_message hop_msg peer_id seed).2.sent ∧
    ((st.handle_hop_message hop_msg peer_id seed).2.handle_hop_message hop_msg peer_id
        seed2).2.ack_mgr
      = (st.handle_hop_message hop_msg peer_id seed).2.ack_mgr ∧
    ((st.handle_hop_message hop_msg peer_id seed).2.handle_hop_message hop_msg peer_id
        seed2).2.events
      = (st.handle_hop_message hop_msg peer_id seed).2.events := by
  obtain ⟨a1, g1, hstate, hmem1, hout1⟩ :=
    handle_hop_message_state st hop_msg peer_id seed hpeer hver hint
  by_cases hia : st.in_authority hop_msg.content.routing_message.dst = true
  · rw [if_pos hia] at hstate hout1
    have hsf := send_ack_frame st hop_msg.content.routing_message 0
    have hFfid : (st.handle_hop_message hop_msg peer_id seed).2.full_id = st.full_id := by
      rw [hstate]
      exact hsf.1
    have hFppi : (st.handle_hop_message hop_msg peer_id seed).2.proxy_peer_id
        = st.proxy_peer_id := by
      rw [hstate]
      exact hsf.2.1
    have hFppu : (st.handle_hop_message hop_msg peer_id seed).2.proxy_public_id
        = st.proxy_public_id := by
      rw [hstate]
      exact hsf.2.2.1
    have hFmin : (st.handle_hop_message hop_msg peer_id seed).2.min_section_size
        = st.min_section_size := by
      rw [hstate]
      exact hsf.2.2.2.1
    have hFfil : (st.handle_hop_message hop_msg peer_id seed).2.routing_msg_filter = g1 := by
      rw [hstate]
    have hpeer2 : peer_id = (st.handle_hop_message hop_msg peer_id seed).2.proxy_peer_id := by
      rw [hFppi]
      exact hpeer
    have hver2 : hop_msg.verify
        (st.handle_hop_message hop_msg peer_id seed).2.proxy_public_id.sign_key = .ok () := by
      rw [hFppu]
      exact hver
    have hint2 : hop_msg.content.check_integrity
        (st.handle_hop_message hop_msg peer_id seed).2.min_section_size = .ok () := by
      rw [hFmin]
      exact hint
    have hia2 : (st.handle_hop_message hop_msg peer_id seed).2.in_authority
        hop_msg.content.routing_message.dst = true := by
      rw [in_authority_congr st (st.handle_hop_message hop_msg peer_id seed).2 hFfid]
      exact hia
    have hmem2 : (hop_msg.content.routing_message, hop_msg.route)
        ∈ (if (st.handle_hop_message hop_msg peer_id seed).2.in_authority
              hop_msg.content.routing_message.dst
           then (st.handle_hop_message hop_msg peer_id seed).2.send_ack
              hop_msg.content.routing_message 0
           else (st.handle_hop_message hop_msg peer_id
              seed).2).routing_msg_filter.incoming := by
      rw [if_pos hia2,
        (send_ack_frame (st.handle_hop_message hop_msg peer_id seed).2
          hop_msg.content.routing_message 0).2.2.2.2, hFfil]
      exact hmem1
    have hsecond := handle_hop_message_known (st.handle_hop_message hop_msg peer_id seed).2
      hop_msg peer_id seed2 hpeer2 hver2 hint2 hmem2
    rw [if_pos hia2] at hsecond
    have hout : (st.handle_hop_message hop_msg peer_id seed).2.routing_msg_filter.outgoing
        = ((st.send_ack hop_msg.content.routing_message 0).routing_msg_filter).outgoing := by
      rw [hFfil]
      exact hout1
    obtain ⟨hsent, hack, hevents⟩ := send_ack_replay st
      (st.handle_hop_message hop_msg peer_id seed).2 hop_msg.content.routing_message
      hFfid hFppi hFppu hout
    refine ⟨?_, ?_, ?_, ?_, ?_⟩
    · rw [hsecond]
    · rw [hFfil, filter_incoming_known _ _ _ hmem1]
    · rw [hsecond]
      exact hsent
    · rw [hsecond]
      exact hack
    · rw [hsecond]
      exact hevents
  · rw [if_neg hia] at hstate hout1
    have hFfid : (st.handle_hop_message hop_msg peer_id seed).2.full_id = st.full_id := by
      rw [hstate]
    have hFppi : (st.handle_hop_message hop_msg peer_id seed).2.proxy_peer_id
        = st.proxy_peer_id := by
      rw [hstate]
    have hFppu : (st.handle_hop_message hop_msg peer_id seed).2.proxy_public_id
        = st.proxy_public_id := by
      rw [hstate]
    have hFmin : (st.handle_hop_message hop_msg peer_id seed).2.min_section_size
        = st.min_section_size := by
      rw [hstate]
    have hFfil : (st.handle_hop_message hop_msg peer_id seed).2.routing_msg_filter = g1 := by
      rw [hstate]
    have hpeer2 : peer_id = (st.handle_hop_message hop_msg peer_id seed).2.proxy_peer_id := by
      rw [hFppi]
      exact hpeer
    have hver2 : hop_msg.verify
        (st.handle_hop_message hop_msg peer_id seed).2.proxy_public_id.sign_key = .ok () := by
      rw [hFppu]
      exact hver
    have hint2 : hop_msg.content.check_integrity
        (st.handle_hop_message hop_msg peer_id seed).2.min_section_size = .ok () := by
      rw [hFmin]
      exact hint
    have hia2 : ¬((st.handle_hop_message hop_msg peer_id seed).2.in_authority
        hop_msg.content.routing_message.dst = true) := by
      rw [in_authority_congr st (st.handle_hop_message hop_msg peer_id seed).2 hFfid]
      exact hia
    have hmem2 : (hop_msg.content.routing_message, hop_msg.route)
        ∈ (if (st.handle_hop_message hop_msg peer_id seed).2.in_authority
              hop_msg.content.routing_message.dst
           then (st.handle_hop_message hop_msg peer_id seed).2.send_ack
              hop_msg.content.routing_message 0
           else (st.handle_hop_message hop_msg peer_id
              seed).2).routing_msg_filter.incoming := by
      rw [if_neg hia2, hFfil]
      exact hmem1
    have hsecond := handle_hop_message_known (st.handle_hop_message hop_msg peer_id seed).2
      hop_msg peer_id seed2 hpeer2 hver2 hint2 hmem2
    rw [if_neg hia2] at hsecond
    refine ⟨?_, ?_, ?_, ?_, ?_⟩
    · rw [hsecond]
    · rw [hFfil, filter_incoming_known _ _ _ hmem1]
    · rw [hsecond]
    · rw [hsecond]
    · rw [hsecond]

/-- C1 witness: the concrete section-sourced message addressed to the own
client authority of testState, delivered twice verbatim on route 0 from
the proxy, passes verification and integrity both times, and the second
delivery is dropped as a known message and route with the transmission
log, the acknowledgment manager and the event log unchanged. -/
theorem handle_hop_message_replay_witness :
    (2 : PeerId) = testState.proxy_peer_id ∧
    testHop.verify testState.proxy_public_id.sign_key = .ok () ∧
    testHop.content.check_integrity testState.min_section_size = .ok () ∧
    (((testState.handle_hop_message testHop 2 0).2.handle_hop_message testHop 2 1).1
        = .error .FilterCheckFailed ∧
      ((testState.handle_hop_message testHop 2 0).2.routing_msg_filter.filter_incoming
          testHop.content.routing_message testHop.route).1 = .KnownMessageAndRoute ∧
      ((testState.handle_hop_message testHop 2 0).2.handle_hop_message testHop 2 1).2.sent
        = (testState.handle_hop_message testHop 2 0).2.sent ∧
      ((testState.handle_hop_message testHop 2 0).2.handle_hop_message testHop 2 1).2.ack_mgr
        = (testState.handle_hop_message testHop 2 0).2.ack_mgr ∧
      ((testState.handle_hop_message testHop 2 0).2.handle_hop_message testHop 2 1).2.events
        = (testState.handle_hop_message testHop 2 0).2.events) :=
  ⟨by decide, by decide, by decide,
    handle_hop_message_replay testState testHop 2 0 1 (by decide) (by decide) (by decide)⟩

/-- C3: a HopMessage from any peer other than the known proxy peer is
rejected with UnknownConnection before the inner SignedMessage is
inspected, and the handler state (acknowledgment manager, routing message
filter, identity, logs) is returned unchanged. -/
theorem handle_hop_message_unknown_peer (st : JoiningNode) (hop_msg : HopMessage)
    (peer : PeerId) (seed : Nat) (h : peer ≠ st.proxy_peer_id) :
    st.handle_hop_message hop_msg peer seed = (.error (.UnknownConnection peer), st) := by
  unfold JoiningNode.handle_hop_message
  rw [if_neg (fun he => h he.symm)]

/-- C3 witness: peer 3 is not the proxy of testState, and the concrete
rejection happens with no state change. -/
theorem handle_hop_message_unknown_peer_witness :
    (3 : PeerId) ≠ testState.proxy_peer_id ∧
    testState.handle_hop_message testHop 3 0
      = (.error (.UnknownConnection 3), testState) :=
  ⟨by decide, handle_hop_message_unknown_peer testState testHop 3 0 (by decide)⟩

/-- C4: a HopMessage from the proxy whose inner SignedMessage fails the
integrity check makes the handler return that integrity error with the
state unchanged, so no acknowledgment is sent, whatever the destination
authority of the message. -/
theorem handle_hop_message_integrity_error (st : JoiningNode) (hop_msg : HopMessage)
    (peer : PeerId) (seed : Nat) (e : RoutingError)
    (hpeer : peer = st.proxy_peer_id)
    (hver : hop_msg.verify st.proxy_public_id.sign_key = .ok ())
    (hint : hop_msg.content.check_integrity st.min_section_size = .error e) :
    st.handle_hop_message hop_msg peer seed = (.error e, st) := by
  unfold JoiningNode.handle_hop_message
  rw [if_pos hpeer.symm, hver]
  dsimp only
  rw [hint]

/-- C4 witness: the concrete hop message carries one signature where the
quorum needs five; the destination authority matches the own client
authority of testState, yet the handler returns the integrity error with
the state (and hence the transmission log) unchanged. -/
theorem handle_hop_message_integrity_error_witness :
    (2 : PeerId) = testState.proxy_peer_id ∧
    testBadHop.verify testState.proxy_public_id.sign_key = .ok () ∧
    testBadHop.content.check_integrity testState.min_section_size
      = .error .NotEnoughSignatures ∧
    testState.in_authority testBadHop.content.routing_message.dst = true ∧
    testState.handle_hop_message testBadHop 2 0
      = (.error .NotEnoughSignatures, testState) :=
  ⟨by decide, by decide, by decide, by decide,
    handle_hop_message_integrity_error testState testBadHop 2 0 .NotEnoughSignatures
      (by decide) (by decide) (by decide)⟩

/-- C5: dispatching a RelocateResponse with target interval from lo to hi
yields the transition back toward Bootstrapping carrying the candidate
section membership forward, with a new identity whose address lies within
the closed interval. -/
theorem dispatch_relocate_response_in_interval (st : JoiningNode)
    (msg : RoutingMessage) (lo hi : XorName) (sec : List PublicId) (seed : Nat)
    (hc : msg.content = .RelocateResponse (lo, hi) sec) (hle : lo ≤ hi) :
    st.dispatch_routing_message msg seed
      = (.IntoBootstrapping (FullId.within_range lo hi seed) sec, st) ∧
    lo ≤ (FullId.within_range lo hi seed).name ∧
    (FullId.within_range lo hi seed).name ≤ hi := by
  refine ⟨?_, ?_, ?_⟩
  · unfold JoiningNode.dispatch_routing_message
    rw [hc]
    rfl
  · exact Nat.le_add_right lo _
  · have hm : seed % (hi - lo + 1) < hi - lo + 1 := Nat.mod_lt seed (Nat.succ_pos _)
    have h2 : seed % (hi - lo + 1) ≤ hi - lo := Nat.lt_succ_iff.mp hm
    show lo + seed % (hi - lo + 1) ≤ hi
    calc lo + seed % (hi - lo + 1) ≤ lo + (hi - lo) := Nat.add_le_add_left h2 lo
      _ = hi := Nat.add_sub_cancel' hle

/-- C5 witness: at the concrete interval from 10 to 20 and seed 4, the new
identity has address 14, inside the interval, and the section membership
is carried forward. -/
theorem dispatch_relocate_response_in_interval_witness :
    testRelocateResponse.content = .RelocateResponse (10, 20) [⟨12, 13⟩] ∧
    (10 : XorName) ≤ 20 ∧
    testState.dispatch_routing_message testRelocateResponse 4
      = (.IntoBootstrapping (FullId.within_range 10 20 4) [⟨12, 13⟩], testState) ∧
    (10 : XorName) ≤ (FullId.within_range 10 20 4).name ∧
    (FullId.within_range 10 20 4).name ≤ 20 := by
  have h := dispatch_relocate_response_in_interval testState testRelocateResponse
    10 20 [⟨12, 13⟩] 4 (by decide) (by decide)
  exact ⟨by decide, by decide, h.1, h.2.1, h.2.2⟩

/-- C6: the handler terminates with a RestartRequired event exactly on the
registered relocation timer token; every other token is delegated to the
acknowledgment manager resend logic, the handler stays, and neither the
event log nor the registered token changes. -/
theorem handle_timeout_relocation_boundary (st : JoiningNode) (token : Nat) :
    (token = st.relocation_timer_token →
      st.handle_timeout token
        = (.Terminate, { st with events := st.events ++ [.RestartRequired] })) ∧
    (token ≠ st.relocation_timer_token →
      st.handle_timeout token = (.Stay, st.resend_unacknowledged_timed_out_msgs token) ∧
      (st.resend_unacknowledged_timed_out_msgs token).events = st.events ∧
      (st.resend_unacknowledged_timed_out_msgs token).relocation_timer_token
        = st.relocation_timer_token) := by
  constructor
  · intro h
    unfold JoiningNode.handle_timeout
    rw [if_pos h.symm]
  · intro h
    refine ⟨?_, (resend_unacked_frame st token).1, (resend_unacked_frame st token).2.1⟩
    unfold JoiningNode.handle_timeout
    rw [if_neg (fun he => h he.symm)]

/-- C6 witness: token 0 is the registered relocation token of testState
and terminates with RestartRequired; token 5 is not, is delegated to the
resend logic (a no-op on the empty pending set) and stays. -/
theorem handle_timeout_relocation_boundary_witness :
    ((0 : Nat) = testState.relocation_timer_token ∧
      testState.handle_timeout 0
        = (.Terminate, { testState with events := testState.events ++ [.RestartRequired] })) ∧
    ((5 : Nat) ≠ testState.relocation_timer_token ∧
      testState.handle_timeout 5
        = (.Stay, testState.resend_unacknowledged_timed_out_msgs 5)) :=
  ⟨⟨by decide, (handle_timeout_relocation_boundary testState 0).1 (by decide)⟩,
   ⟨by decide, ((handle_timeout_relocation_boundary testState 5).2 (by decide)).1⟩⟩

/-- C9: every content variant other than an acknowledgment and a
relocation response is dropped by dispatch_routing_message: the handler
returns Stay with the state untouched (the function is total, so no crash
is possible), and an immediately following dispatch, for example of a
valid RelocateResponse, behaves exactly as on the original state. -/
theorem dispatch_unhandled_variant_stays (st : JoiningNode) (msg : RoutingMessage)
    (seed : Nat) (hack : msg.content.is_ack = false)
    (hrel : msg.content.is_relocate_response = false) :
    st.dispatch_routing_message msg seed = (.Stay, st) ∧
    ∀ msg2 seed2,
      ((st.dispatch_routing_message msg seed).2).dispatch_routing_message msg2 seed2
        = st.dispatch_routing_message msg2 seed2 := by
  have h1 : st.dispatch_routing_message msg seed = (.Stay, st) := by
    unfold JoiningNode.dispatch_routing_message
    cases hm : msg.content <;>
      simp_all [MessageContent.is_ack, MessageContent.is_relocate_response]
  exact ⟨h1, fun msg2 seed2 => by rw [h1]⟩

/-- C9 witness: a SectionUpdate received while awaiting relocation is
ignored, the state stays unchanged, and the immediately following
RelocateResponse still succeeds with the transition toward
Bootstrapping. -/
theorem dispatch_unhandled_variant_stays_witness :
    testRoutingMessage.content.is_ack = false ∧
    testRoutingMessage.content.is_relocate_response = false ∧
    testState.dispatch_routing_message testRoutingMessage 0 = (.Stay, testState) ∧
    ((testState.dispatch_routing_message testRoutingMessage 0).2).dispatch_routing_message
        testRelocateResponse 4
      = testState.dispatch_routing_message testRelocateResponse 4 :=
  ⟨by decide, by decide,
    (dispatch_unhandled_variant_stays testState testRoutingMessage 0
      (by decide) (by decide)).1,
    (dispatch_unhandled_variant_stays testState testRoutingMessage 0
      (by decide) (by decide)).2 testRelocateResponse 4⟩

/-- C10: a LostPeer event for any peer other than the proxy, including the
degenerate case of the own crust service id, neither terminates nor emits
any event: the handler returns Stay with the state unchanged. -/
theorem handle_lost_peer_non_proxy_stays (st : JoiningNode) (peer : PeerId)
    (h : peer ≠ st.proxy_peer_id) :
    st.handle_lost_peer peer = (.Stay, st) := by
  unfold JoiningNode.handle_lost_peer
  by_cases hc : peer = st.crust_service_id
  · rw [if_pos hc]
  · rw [if_neg hc, if_neg (fun he => h he.symm)]

/-- C10 witness: losing peer 7 (an arbitrary non-proxy peer) and losing
peer 1 (the own crust service id of testState) both leave the state
unchanged and stay. -/
theorem handle_lost_peer_non_proxy_stays_witness :
    ((7 : PeerId) ≠ testState.proxy_peer_id ∧
      testState.handle_lost_peer 7 = (.Stay, testState)) ∧
    ((1 : PeerId) ≠ testState.proxy_peer_id ∧
      testState.handle_lost_peer 1 = (.Stay, testState)) :=
  ⟨⟨by decide, handle_lost_peer_non_proxy_stays testState 7 (by decide)⟩,
   ⟨by decide, handle_lost_peer_non_proxy_stays testState 1 (by decide)⟩⟩

/-- C2 counterexample: at the concrete state testState, losing the proxy
peer emits the Terminate event and no RestartRequired event, refuting the
claimed restart-required signal; and at the concrete state
testStateSelfProxy, whose proxy peer id coincides with the own crust
service id, losing the proxy peer does not terminate at all. -/
theorem handle_lost_peer_restart_counterexample :
    ((testState.handle_lost_peer testState.proxy_peer_id).1 = .Terminate ∧
      Event.RestartRequired ∉
        ((testState.handle_lost_peer testState.proxy_peer_id).2).events) ∧
    (testStateSelfProxy.handle_lost_peer testStateSelfProxy.proxy_peer_id).1 = .Stay := by
  decide

/-- C2 (amended): a LostPeer event whose peer is the proxy peer and
differs from the own crust service id emits the Terminate event and
terminates the state machine. -/
theorem handle_lost_peer_proxy_terminates (st : JoiningNode) (peer : PeerId)
    (hproxy : peer = st.proxy_peer_id) (hself : peer ≠ st.crust_service_id) :
    st.handle_lost_peer peer
      = (.Terminate, { st with events := st.events ++ [.Terminate] }) := by
  unfold JoiningNode.handle_lost_peer
  rw [if_neg hself, if_pos hproxy.symm]

/-- C7: handle_action answers every Action variant: both send requests are
rejected with InvalidState on their reply channel, Name answers the
current Address, Timeout is dispatched to the timeout logic (terminal
exactly when the timeout logic terminates), ResourceProofResult produces
no reply and no transition (a warning only), and Terminate yields the
terminal transition. -/
theorem handle_action_total (st : JoiningNode) :
    (∀ src dst content priority,
      st.handle_action (.NodeSendMessage src dst content priority)
        = (.Stay, st, some (.interfaceResult (some .InvalidState)))) ∧
    (∀ content dst priority,
      st.handle_action (.ClientSendRequest content dst priority)
        = (.Stay, st, some (.interfaceResult (some .InvalidState)))) ∧
    st.handle_action .Name = (.Stay, st, some (.nameResult st.name)) ∧
    (∀ token,
      st.handle_action (.Timeout token)
        = (if (st.handle_timeout token).1 = .Terminate then .Terminate else .Stay,
           (st.handle_timeout token).2, none)) ∧
    (∀ peer payload,
      st.handle_action (.ResourceProofResult peer payload) = (.Stay, st, none)) ∧
    st.handle_action .Terminate = (.Terminate, st, none) := by
  refine ⟨fun _ _ _ _ => rfl, fun _ _ _ => rfl, rfl, ?_, fun _ _ => rfl, rfl⟩
  intro token
  unfold JoiningNode.handle_action
  dsimp only
  cases h : (st.handle_timeout token).1 <;> simp [h]

/-- C8: from_bootstrapping immediately constructs and sends the signed
Relocate request, sourced at the own client authority and destined to the
Section authority responsible for the own current address, and aborts
entry (returns none) exactly when that send fails; the construction and
send succeed here, and the single transmission handed to the transport is
the signed Relocate request sent to the proxy peer on route zero. -/
theorem from_bootstrapping_sends_relocate (csid : PeerId) (fid : FullId)
    (mss : Nat) (ppid : PeerId) (ppub : PublicId) (timer : Timer) (mid : Nat) :
    (JoiningNode.from_bootstrapping csid fid mss ppid ppub timer mid
      = match (init_joining_node csid fid mss ppid ppub timer).relocate mid with
        | (.ok _, jn2) => some jn2
        | (.error _, _) => none) ∧
    ∃ jn, JoiningNode.from_bootstrapping csid fid mss ppid ppub timer mid = some jn ∧
      jn.sent = [(ppid,
        SignedMessage.new
          ⟨.Client fid.public_id.sign_key ppub.name csid,
           .Section fid.name,
           .Relocate fid.public_id mid⟩ fid [], 0)] := by
  constructor
  · rfl
  · refine ⟨after_relocate_state csid fid mss ppid ppub timer mid, ?_, ?_⟩
    · simp [JoiningNode.from_bootstrapping, init_joining_node, JoiningNode.relocate,
        relocate_request, after_relocate_state, JoiningNode.send_routing_message,
        JoiningNode.send_routing_message_via_route, JoiningNode.add_to_pending_acks,
        RoutingMessageFilter.filter_outgoing, RoutingMessageFilter.new, AckManager.new,
        Timer.schedule, Stats.count_route, Stats.new, Authority.is_client,
        JoiningNode.in_authority, JoiningNode.name]
    · rfl

/-- C2 witness: losing peer 2, the proxy of testState and distinct from
its crust service id 1, emits Terminate and terminates. -/
theorem handle_lost_peer_proxy_terminates_witness :
    (2 : PeerId) = testState.proxy_peer_id ∧
    (2 : PeerId) ≠ testState.crust_service_id ∧
    testState.handle_lost_peer 2
      = (.Terminate, { testState with events := testState.events ++ [.Terminate] }) :=
  ⟨by decide, by decide,
    handle_lost_peer_proxy_terminates testState 2 (by decide) (by decide)⟩

end RoutingSpec
